import Mathlib

/-!
# Verification of the SFTP transfer application (`src/fs2.py`)

Shallow embedding of the transfer/history core of `FileSharingApp`:
the history store (`load_history`, `save_history`, `add_to_history`,
`clear_history`, `delete_selected_history`), the progress sink
(`update_progress`), and the transfer orchestrator
(`upload_file`, `download_file`, `_transfer_file`).

The GUI widgets, dialogs and threading are collaborators: their observable
decisions (which file was picked, whether the save dialog was declined,
whether the network calls succeed) enter the embedding as parameters of an
environment record, and the externally visible actions of a transfer attempt
are recorded as an event trace so that ordering claims can be stated.
-/

namespace FS2

/-- One record of the persisted transfer history: the JSON objects written by
`add_to_history` have exactly the four string fields
`date`, `type`, `file`, `status` (`fs2.py` lines 327-334). -/
structure HistoryEntry where
  date : String
  type : String
  file : String
  status : String
deriving DecidableEq, Repr

/-- State of the persisted history file `transfer_history.json` as
`load_history` can observe it: the file does not exist
(`os.path.exists` is false), opening/reading/parsing it raises
(the bare `except` path), or it holds a JSON list of records. -/
inductive FileState where
  | absent : FileState
  | corrupt : FileState
  | stored : List HistoryEntry → FileState
deriving DecidableEq, Repr

/-- `load_history` (`fs2.py` lines 294-308): returns the parsed list when the
file exists and parses, and `[]` when the file is missing or any exception is
raised while reading it. -/
def load_history : FileState → List HistoryEntry
  | FileState.absent => []
  | FileState.corrupt => []
  | FileState.stored l => l

/-- `save_history` (`fs2.py` lines 310-316): `json.dump` of the in-memory
list replaces the file contents. JSON serialisation of records of string
fields round-trips losslessly (`ensure_ascii=False`, UTF-8), so the written
file is modelled as `FileState.stored` of the list. -/
def save_history (l : List HistoryEntry) (_fs : FileState) : FileState :=
  FileState.stored l

/-- The application state the history claims are about: the in-memory list
`self.transfer_history` and the persisted file. -/
structure AppState where
  transfer_history : List HistoryEntry
  file : FileState
deriving DecidableEq, Repr

/-- `add_to_history` (`fs2.py` lines 318-337): appends one entry stamped with
the current time and immediately calls `save_history`. The timestamp string
`datetime.now().strftime(...)` is passed in as `now`. -/
def add_to_history (now ttype fname status : String) (s : AppState) : AppState :=
  let h := s.transfer_history ++ [⟨now, ttype, fname, status⟩]
  { transfer_history := h, file := save_history h s.file }

/-- The confirmed branch of `clear_history` (`fs2.py` lines 360-371): resets
the list to `[]` and calls `save_history`. -/
def clear_history (s : AppState) : AppState :=
  { transfer_history := [], file := save_history [] s.file }

/-- Status column shown in the history tree (`update_history_display`,
`fs2.py` line 356): Persian for success/failed. -/
def statusDisplay (status : String) : String :=
  if status = "success" then "موفق" else "ناموفق"

/-- Inverse mapping applied by `delete_selected_history` to the displayed
status (`fs2.py` line 270). -/
def displayToStatus (d : String) : String :=
  if d = "موفق" then "success" else "failed"

/-- The match condition of the deletion loop (`fs2.py` lines 266-271):
an entry matches the selected row when date, file and status agree. -/
def matchKey (d f st : String) (e : HistoryEntry) : Bool :=
  e.date == d && e.file == f && e.status == st

/-- The loop body of `delete_selected_history` (`fs2.py` lines 265-273):
scan the list in order, delete the first entry matching the key, `break`. -/
def deleteFirstMatch (d f st : String) : List HistoryEntry → List HistoryEntry
  | [] => []
  | e :: rest =>
    if matchKey d f st e then rest
    else e :: deleteFirstMatch d f st rest

/-- `delete_selected_history` (`fs2.py` lines 246-277) for one confirmed
selected row: the row carries the displayed values `(date, type, file,
statusDisp)`; the entry list loses its first entry whose date, file and
mapped-back status match, then `save_history` runs. -/
def delete_selected_history (date file statusDisp : String) (s : AppState) : AppState :=
  let h := deleteFirstMatch date file (displayToStatus statusDisp) s.transfer_history
  { transfer_history := h, file := save_history h s.file }

/-- `os.path.basename` on POSIX paths: the component after the last slash. -/
def basename (p : String) : String :=
  ((p.splitOn "/").getLastD p)

/-- Python exceptions the embedded fragments can raise. -/
inductive PyError where
  | zeroDivisionError : PyError
deriving DecidableEq, Repr

/-- `update_progress` (`fs2.py` lines 279-292): computes
`percentage = (transferred / total) * 100`. Python integer `/` raises
`ZeroDivisionError` when the divisor is `0` and otherwise yields the true
quotient (modelled exactly, as a rational). -/
def update_progress (transferred total : Nat) : Except PyError ℚ :=
  if total = 0 then Except.error PyError.zeroDivisionError
  else Except.ok ((transferred : ℚ) / (total : ℚ) * 100)

/-- The `action` argument of `_transfer_file`. -/
inductive Action where
  | upload : Action
  | download : Action
deriving DecidableEq, Repr

/-- `action.capitalize()`d tag stored in history: `"upload"` or `"download"`. -/
def actionStr : Action → String
  | Action.upload => "upload"
  | Action.download => "download"

/-- Externally visible actions of one transfer attempt, in the order
`_transfer_file` performs them. `sessionOpen` is the successful
`transport.connect` plus `SFTPClient.from_transport`; `statRemote` is the
`sftp.stat` call; `localCreate` is the creation of the local destination file
that `sftp.get` performs before requesting bytes; `byteTransfer` is an issued
`sftp.put`/`sftp.get`; `historyAppend` is `add_to_history`; `sessionClose` is
`sftp.close()` plus `transport.close()`. -/
inductive Ev where
  | sessionOpen : Ev
  | statRemote : String → Ev
  | localCreate : String → Ev
  | byteTransfer : String → Ev
  | historyAppend : HistoryEntry → Ev
  | sessionClose : Ev
deriving DecidableEq, Repr

/-- The collaborators' observable behaviour during one `_transfer_file` call:
the entry widgets' contents, the selected upload file (`self.file_path`,
`none` when never set; the empty string when the dialog was cancelled), the
save-dialog result (`none` = user declined), and whether each network call
succeeds. `remoteStat` is `none` when `sftp.stat` raises (remote file
absent). -/
structure Env where
  server : String
  username : String
  password : String
  file_path : Option String
  savePath : Option String
  openOk : Bool
  remoteStat : Option Nat
  transferOk : Bool
deriving DecidableEq, Repr

/-- The validation at `fs2.py` lines 429-433: `all([server, username,
password])`, i.e. all three strings non-empty. -/
def validParams (env : Env) : Bool :=
  !(env.server == "") && !(env.username == "") && !(env.password == "")

/-- `_transfer_file` (`fs2.py` lines 409-545), returning the event trace of
the attempt and the updated application state. Branches follow the source:
missing connection details return before the `try`; a failed connect or a
failed `sftp.stat`/`put`/`get` jumps to the `except` handler, which appends a
failed entry and does not close the session; the declined-save branch appends
a failed entry and returns without closing; only the straight-line success
path reaches `sftp.close()`/`transport.close()` at lines 523-524. -/
def transfer_file (now : String) (action : Action) (remote_file : Option String)
    (env : Env) (s : AppState) : List Ev × AppState :=
  if !(validParams env) then ([], s)
  else if !env.openOk then
    let name := match action with
      | Action.upload => basename (env.file_path.getD "")
      | Action.download => remote_file.getD ""
    ([Ev.historyAppend ⟨now, actionStr action, name, "failed"⟩],
      add_to_history now (actionStr action) name "failed" s)
  else
    match action with
    | Action.upload =>
      let name := basename (env.file_path.getD "")
      if env.transferOk then
        ([Ev.sessionOpen, Ev.byteTransfer name,
            Ev.historyAppend ⟨now, "upload", name, "success"⟩, Ev.sessionClose],
          add_to_history now "upload" name "success" s)
      else
        ([Ev.sessionOpen, Ev.byteTransfer name,
            Ev.historyAppend ⟨now, "upload", name, "failed"⟩],
          add_to_history now "upload" name "failed" s)
    | Action.download =>
      let rf := remote_file.getD ""
      match env.savePath with
      | none =>
        ([Ev.sessionOpen, Ev.historyAppend ⟨now, "download", rf, "failed"⟩],
          add_to_history now "download" rf "failed" s)
      | some sp =>
        match env.remoteStat with
        | none =>
          ([Ev.sessionOpen, Ev.statRemote rf,
              Ev.historyAppend ⟨now, "download", rf, "failed"⟩],
            add_to_history now "download" rf "failed" s)
        | some _size =>
          if env.transferOk then
            ([Ev.sessionOpen, Ev.statRemote rf, Ev.localCreate sp,
                Ev.byteTransfer rf,
                Ev.historyAppend ⟨now, "download", rf, "success"⟩,
                Ev.sessionClose],
              add_to_history now "download" rf "success" s)
          else
            ([Ev.sessionOpen, Ev.statRemote rf, Ev.localCreate sp,
                Ev.byteTransfer rf,
                Ev.historyAppend ⟨now, "download", rf, "failed"⟩],
              add_to_history now "download" rf "failed" s)

/-- `upload_file` (`fs2.py` lines 373-387): rejects the request with an error
dialog when no file has been selected (`file_path` unset or falsy), otherwise
hands over to `_transfer_file("upload")`. -/
def upload_file (now : String) (env : Env) (s : AppState) : List Ev × AppState :=
  match env.file_path with
  | none => ([], s)
  | some p => if p = "" then ([], s) else transfer_file now Action.upload none env s

/-- `download_file` (`fs2.py` lines 389-407): rejects the request with an
error dialog when the remote-file entry is empty, otherwise hands over to
`_transfer_file("download", remote_file=remote_file)`. -/
def download_file (now : String) (remote_file : String) (env : Env) (s : AppState) :
    List Ev × AppState :=
  if remote_file = "" then ([], s)
  else transfer_file now Action.download (some remote_file) env s

/-- Modelled from the spec: the chunked byte-streaming loop of the Transfer
Session (`paramiko`'s `sftp.put`/`sftp.get`, which is not part of this
repository; `fs2.py` only forwards its `(transferred, total)` callback
arguments unchanged to `update_progress`). Per spec section 4.1, the session
computes `total` once before starting and invokes the callback after every
chunk write with the cumulative transferred count, so after chunk `k` the
sample is `(min ((k+1)*chunk) total, total)`. -/
def progressSamples (chunk total : Nat) : List (Nat × Nat) :=
  (List.range ((total + chunk - 1) / chunk)).map
    (fun k => (min ((k + 1) * chunk) total, total))

/-- Recogniser for `statRemote` events. -/
def isStatEv : Ev → Bool
  | Ev.statRemote _ => true
  | _ => false

/-- Recogniser for `byteTransfer` events. -/
def isByteEv : Ev → Bool
  | Ev.byteTransfer _ => true
  | _ => false

/-- Recogniser for `historyAppend` events. -/
def isAppendEv : Ev → Bool
  | Ev.historyAppend _ => true
  | _ => false

/-- Recogniser for `sessionClose` events. -/
def isCloseEv : Ev → Bool
  | Ev.sessionClose => true
  | _ => false

/-- An empty application state, used for concrete instantiations. -/
def s0 : AppState := ⟨[], FileState.absent⟩

/-- Concrete environment: valid connection details, download save dialog
declined by the user, network fully functional. -/
def envDecl : Env :=
  { server := "h", username := "u", password := "p", file_path := none,
    savePath := none, openOk := true, remoteStat := some 10, transferOk := true }

/-- Concrete environment: valid connection details, a selected local file,
fully successful transfer. -/
def envUp : Env :=
  { server := "h", username := "u", password := "p",
    file_path := some "/tmp/a.txt", savePath := none, openOk := true,
    remoteStat := none, transferOk := true }

/-- Concrete environment: valid connection details, save path chosen,
remote file absent (`sftp.stat` raises). -/
def envStatFail : Env :=
  { server := "h", username := "u", password := "p", file_path := none,
    savePath := some "/tmp/out.bin", openOk := true, remoteStat := none,
    transferOk := true }

/-- Concrete environment with an empty server field (incomplete connection
details). -/
def envNoServer : Env :=
  { server := "", username := "u", password := "p", file_path := some "/tmp/a.txt",
    savePath := some "/tmp/out.bin", openOk := true, remoteStat := some 10,
    transferOk := true }

/-- Concrete two-entry history sharing the file name `"a.txt"` but differing
in date and outcome. -/
def twoEntryState : AppState :=
  ⟨[⟨"2024-01-01 10:00", "upload", "a.txt", "success"⟩,
    ⟨"2024-01-02 11:00", "download", "a.txt", "failed"⟩], FileState.absent⟩

end FS2

namespace FS2

/- ### Helper lemmas -/

theorem deleteFirstMatch_sublist (d f st : String) (l : List HistoryEntry) :
    (deleteFirstMatch d f st l).Sublist l := by
  induction l with
  | nil => simp [deleteFirstMatch]
  | cons e rest ih =>
    by_cases he : matchKey d f st e
    · simp [deleteFirstMatch, he]
    · simpa [deleteFirstMatch, he] using ih.cons₂ e

theorem deleteFirstMatch_countP (d f st : String) (l : List HistoryEntry)
    (h : 0 < l.countP (fun e => matchKey d f st e)) :
    (deleteFirstMatch d f st l).countP (fun e => matchKey d f st e)
      = l.countP (fun e => matchKey d f st e) - 1 := by
  induction l with
  | nil => simp at h
  | cons e rest ih =>
    by_cases he : matchKey d f st e
    · simp [deleteFirstMatch, he, List.countP_cons]
    · have h' : 0 < rest.countP (fun e => matchKey d f st e) := by
        simpa [List.countP_cons, he] using h
      have hr := ih h'
      simp only [deleteFirstMatch, he, if_false, Bool.false_eq_true, ite_false,
        List.countP_cons, hr]
      omega

theorem deleteFirstMatch_length (d f st : String) (l : List HistoryEntry)
    (h : 0 < l.countP (fun e => matchKey d f st e)) :
    (deleteFirstMatch d f st l).length = l.length - 1 := by
  induction l with
  | nil => simp at h
  | cons e rest ih =>
    by_cases he : matchKey d f st e
    · simp [deleteFirstMatch, he]
    · have h' : 0 < rest.countP (fun e => matchKey d f st e) := by
        simpa [List.countP_cons, he] using h
      have hr := ih h'
      have hlen : 0 < rest.length := by
        rcases rest with _ | ⟨x, xs⟩
        · simp at h'
        · simp
      simp [deleteFirstMatch, he, hr]
      omega

theorem displayToStatus_statusDisplay (st : String)
    (h : st = "success" ∨ st = "failed") :
    displayToStatus (statusDisplay st) = st := by
  rcases h with h | h <;> subst h <;> simp [statusDisplay, displayToStatus]

/- ### Claim theorems: history store -/

/-- C6: for every history log and every (date, file, outcome) key held by at
least one entry, deleting a selected row bearing that key removes exactly one
matching entry (the match count drops by one, the length drops by one, and
the result is a sublist of the original log, so no other entry is touched or
reordered), even when several entries share a file name but differ in date or
outcome. -/
theorem C6_delete_selected_removes_exactly_one (s : AppState) (d f st : String)
    (hst : st = "success" ∨ st = "failed")
    (hmem : 0 < s.transfer_history.countP (fun e => matchKey d f st e)) :
    (delete_selected_history d f (statusDisplay st) s).transfer_history.countP
        (fun e => matchKey d f st e)
      = s.transfer_history.countP (fun e => matchKey d f st e) - 1
    ∧ (delete_selected_history d f (statusDisplay st) s).transfer_history.length
      = s.transfer_history.length - 1
    ∧ (delete_selected_history d f (statusDisplay st) s).transfer_history.Sublist
        s.transfer_history := by
  have hd := displayToStatus_statusDisplay st hst
  refine ⟨?_, ?_, ?_⟩
  · simpa [delete_selected_history, hd] using
      deleteFirstMatch_countP d f st s.transfer_history hmem
  · simpa [delete_selected_history, hd] using
      deleteFirstMatch_length d f st s.transfer_history hmem
  · simpa [delete_selected_history, hd] using
      deleteFirstMatch_sublist d f st s.transfer_history

/-- Witness for C6 on a concrete two-entry log whose entries share the file
name but differ in date and outcome. -/
theorem C6_delete_selected_removes_exactly_one_witness :
    (delete_selected_history "2024-01-01 10:00" "a.txt" (statusDisplay "success")
        twoEntryState).transfer_history.countP
        (fun e => matchKey "2024-01-01 10:00" "a.txt" "success" e)
      = twoEntryState.transfer_history.countP
        (fun e => matchKey "2024-01-01 10:00" "a.txt" "success" e) - 1
    ∧ (delete_selected_history "2024-01-01 10:00" "a.txt" (statusDisplay "success")
        twoEntryState).transfer_history.length
      = twoEntryState.transfer_history.length - 1
    ∧ (delete_selected_history "2024-01-01 10:00" "a.txt" (statusDisplay "success")
        twoEntryState).transfer_history.Sublist twoEntryState.transfer_history :=
  C6_delete_selected_removes_exactly_one twoEntryState "2024-01-01 10:00" "a.txt"
    "success" (Or.inl rfl) (by decide)

/-- C7: `clear()` followed by `load()` yields an empty log; `append(e)`
followed by `load()` yields the old log with `e` as the most recent
insertion-order element; the persisted representation round-trips losslessly
through load → append → load. -/
theorem C7_history_roundtrip (s : AppState) (now ttype fname status : String)
    (fs : FileState) :
    load_history (clear_history s).file = []
    ∧ load_history (add_to_history now ttype fname status s).file
        = s.transfer_history ++ [⟨now, ttype, fname, status⟩]
    ∧ (load_history (add_to_history now ttype fname status s).file).getLast?
        = some ⟨now, ttype, fname, status⟩
    ∧ load_history (add_to_history now ttype fname status
          ⟨load_history fs, fs⟩).file
        = load_history fs ++ [⟨now, ttype, fname, status⟩] := by
  refine ⟨rfl, rfl, ?_, rfl⟩
  simp [add_to_history, save_history, load_history]

/-- C8: `load()` never fails the caller: when the persisted history file does
not exist, or opening/reading/parsing it raises, it returns an empty log. -/
theorem C8_load_history_lenient :
    load_history FileState.absent = [] ∧ load_history FileState.corrupt = [] :=
  ⟨rfl, rfl⟩

/- ### Claim theorems: orchestrator -/

/-- C1: when the user declines to choose a save destination for a download,
the attempt records exactly one Failed history entry carrying the requested
remote file name, and no `sftp.put`/`sftp.get` byte transfer is issued. -/
theorem C1_declined_save_failed_entry_no_bytes (now rf f : String) (env : Env)
    (s : AppState) (hrf : rf ≠ "") (hv : validParams env = true)
    (hopen : env.openOk = true) (hsave : env.savePath = none) :
    (download_file now rf env s).2.transfer_history
        = s.transfer_history ++ [⟨now, "download", rf, "failed"⟩]
    ∧ Ev.byteTransfer f ∉ (download_file now rf env s).1 := by
  simp [download_file, hrf, transfer_file, hv, hopen, hsave, add_to_history]

/-- Witness for C1 at a concrete declined-save download. -/
theorem C1_declined_save_failed_entry_no_bytes_witness :
    (download_file "2024-01-01 00:00" "f.bin" envDecl s0).2.transfer_history
        = s0.transfer_history
            ++ [⟨"2024-01-01 00:00", "download", "f.bin", "failed"⟩]
    ∧ Ev.byteTransfer "f.bin"
        ∉ (download_file "2024-01-01 00:00" "f.bin" envDecl s0).1 :=
  C1_declined_save_failed_entry_no_bytes "2024-01-01 00:00" "f.bin" "f.bin" envDecl
    s0 (by decide) (by decide) rfl rfl

/-- C2 counterexample: with valid parameters and a successful connect, a
download whose save dialog is declined opens the Session and exits without
ever closing it — the `return` at `fs2.py` line 496 skips
`sftp.close()`/`transport.close()`, so cleanup is not guaranteed on all exit
paths. -/
theorem C2_counterexample :
    Ev.sessionOpen ∈ (download_file "2024-01-01 00:00" "f.bin" envDecl s0).1
    ∧ Ev.sessionClose ∉ (download_file "2024-01-01 00:00" "f.bin" envDecl s0).1 := by
  decide

/-- C2 amended: the Session is closed exactly on the straight-line success
path — valid parameters, successful open, successful byte transfer, and (for
a download) a chosen save destination and a successful remote stat. On every
other exit path after the Session was opened (declined save destination,
stat failure, transfer error) the Session is left open: there is no
`finally` in `_transfer_file`. -/
theorem C2_session_closed_iff_success (now : String) (action : Action)
    (remote_file : Option String) (env : Env) (s : AppState) :
    Ev.sessionClose ∈ (transfer_file now action remote_file env s).1
      ↔ (validParams env = true ∧ env.openOk = true ∧ env.transferOk = true
          ∧ (action = Action.download →
              env.savePath ≠ none ∧ env.remoteStat ≠ none)) := by
  by_cases hv : validParams env = true <;>
    by_cases hop : env.openOk = true <;>
      by_cases ht : env.transferOk = true <;>
        cases action <;>
          cases hsp : env.savePath <;>
            cases hrs : env.remoteStat <;>
              simp_all [transfer_file]

/-- Witness for the amended C2 at a concrete successful upload: the success
conditions hold and the Session is indeed closed. -/
theorem C2_session_closed_iff_success_witness :
    Ev.sessionClose ∈ (transfer_file "2024-01-01 00:00" Action.upload none envUp s0).1 :=
  (C2_session_closed_iff_success "2024-01-01 00:00" Action.upload none envUp
    s0).mpr ⟨by decide, rfl, rfl, fun h => nomatch h⟩

/-- C3 counterexample: on a concrete fully successful upload, the Session is
closed but the Success history append (`fs2.py` line 473) happens strictly
before the close (lines 523-524), so the outcome is recorded while the
connection is still open — contradicting the claimed append-after-close
order. -/
theorem C3_counterexample :
    Ev.sessionClose ∈ (upload_file "2024-01-01 00:00" envUp s0).1
    ∧ (upload_file "2024-01-01 00:00" envUp s0).1.findIdx isAppendEv
        < (upload_file "2024-01-01 00:00" envUp s0).1.findIdx isCloseEv := by
  decide

/-- C3 amended: on every attempt that closes the Session (the success
paths), the terminal history append happens after the byte transfer but
strictly before the Session close; on failure paths the Session is never
closed at all, so every recorded outcome is written while the connection may
still be open. -/
theorem C3_append_after_transfer_before_close (now : String) (action : Action)
    (remote_file : Option String) (env : Env) (s : AppState)
    (hc : Ev.sessionClose ∈ (transfer_file now action remote_file env s).1) :
    (transfer_file now action remote_file env s).1.findIdx isByteEv
        < (transfer_file now action remote_file env s).1.findIdx isAppendEv
    ∧ (transfer_file now action remote_file env s).1.findIdx isAppendEv
        < (transfer_file now action remote_file env s).1.findIdx isCloseEv := by
  by_cases hv : validParams env = true <;>
    by_cases hop : env.openOk = true <;>
      by_cases ht : env.transferOk = true <;>
        cases action <;>
          cases hsp : env.savePath <;>
            cases hrs : env.remoteStat <;>
              simp_all [transfer_file, List.findIdx_cons, isByteEv, isAppendEv,
                isCloseEv]

/-- Witness for the amended C3 at a concrete successful upload. -/
theorem C3_append_after_transfer_before_close_witness :
    (transfer_file "2024-01-01 00:00" Action.upload none envUp s0).1.findIdx isByteEv
        < (transfer_file "2024-01-01 00:00" Action.upload none envUp s0).1.findIdx
            isAppendEv
    ∧ (transfer_file "2024-01-01 00:00" Action.upload none envUp s0).1.findIdx
          isAppendEv
        < (transfer_file "2024-01-01 00:00" Action.upload none envUp s0).1.findIdx
            isCloseEv :=
  C3_append_after_transfer_before_close "2024-01-01 00:00" Action.upload none envUp
    s0 (by decide)

/-- C5: for every download that reaches the transfer body, the remote stat
(`sftp.stat`, `fs2.py` line 499) precedes any byte transfer; and when the
remote file is absent (the stat raises), the attempt records a Failed entry
and no local file is created and no bytes are streamed. -/
theorem C5_stat_before_stream (now rf p f : String) (env : Env) (s : AppState)
    (hrf : rf ≠ "") (hv : validParams env = true) (hopen : env.openOk = true)
    (hsp : env.savePath ≠ none) :
    (env.remoteStat = none →
      (download_file now rf env s).2.transfer_history
          = s.transfer_history ++ [⟨now, "download", rf, "failed"⟩]
      ∧ Ev.localCreate p ∉ (download_file now rf env s).1
      ∧ Ev.byteTransfer f ∉ (download_file now rf env s).1)
    ∧ (download_file now rf env s).1.findIdx isStatEv
        < (download_file now rf env s).1.findIdx isByteEv := by
  obtain ⟨sp, hsp'⟩ := Option.ne_none_iff_exists.mp hsp
  cases hrs : env.remoteStat with
  | none =>
    constructor
    · intro _
      refine ⟨?_, ?_, ?_⟩ <;>
        simp [download_file, hrf, transfer_file, hv, hopen, hsp'.symm, hrs,
          add_to_history]
    · simp [download_file, hrf, transfer_file, hv, hopen, hsp'.symm, hrs,
        List.findIdx_cons, isStatEv, isByteEv]
  | some sz =>
    constructor
    · intro hcontra
      simp [hrs] at hcontra
    · by_cases ht : env.transferOk = true <;>
        simp [download_file, hrf, transfer_file, hv, hopen, hsp'.symm, hrs, ht,
          List.findIdx_cons, isStatEv, isByteEv]

/-- Witness for C5 at a concrete download whose remote file is absent. -/
theorem C5_stat_before_stream_witness :
    ((download_file "2024-01-01 00:00" "f.bin" envStatFail s0).2.transfer_history
          = s0.transfer_history
              ++ [⟨"2024-01-01 00:00", "download", "f.bin", "failed"⟩]
      ∧ Ev.localCreate "/tmp/out.bin"
          ∉ (download_file "2024-01-01 00:00" "f.bin" envStatFail s0).1
      ∧ Ev.byteTransfer "f.bin"
          ∉ (download_file "2024-01-01 00:00" "f.bin" envStatFail s0).1)
    ∧ (download_file "2024-01-01 00:00" "f.bin" envStatFail s0).1.findIdx isStatEv
        < (download_file "2024-01-01 00:00" "f.bin" envStatFail s0).1.findIdx
            isByteEv :=
  have h := C5_stat_before_stream "2024-01-01 00:00" "f.bin" "/tmp/out.bin" "f.bin"
    envStatFail s0 (by decide) (by decide) rfl (by decide)
  ⟨h.1 rfl, h.2⟩

/-- C9: each validation failure other than the declined save destination —
incomplete connection parameters, no local file chosen for an upload, or an
empty remote file name for a download — makes the attempt return before
anything happens: the event trace is empty (no session, no bytes) and the
application state, history log included, is unchanged. -/
theorem C9_validation_failures_silent (now rf : String) (env : Env) (s : AppState) :
    ((env.file_path = none ∨ env.file_path = some "") →
        upload_file now env s = ([], s))
    ∧ (validParams env = false →
        transfer_file now Action.upload none env s = ([], s)
        ∧ transfer_file now Action.download (some rf) env s = ([], s))
    ∧ (rf = "" → download_file now rf env s = ([], s)) := by
  refine ⟨?_, ?_, ?_⟩
  · rintro (h | h) <;> simp [upload_file, h]
  · intro h
    constructor <;> simp [transfer_file, h]
  · intro h
    simp [download_file, h]

/-- Witness for C9: concrete no-file upload, empty-server transfer, and
empty-remote-name download, all returning with no events and unchanged
state. -/
theorem C9_validation_failures_silent_witness :
    upload_file "2024-01-01 00:00" envDecl s0 = ([], s0)
    ∧ transfer_file "2024-01-01 00:00" Action.upload none envNoServer s0 = ([], s0)
    ∧ transfer_file "2024-01-01 00:00" Action.download (some "f.bin") envNoServer s0
        = ([], s0)
    ∧ download_file "2024-01-01 00:00" "" envUp s0 = ([], s0) :=
  ⟨(C9_validation_failures_silent "2024-01-01 00:00" "f.bin" envDecl s0).1
      (Or.inl rfl),
    ((C9_validation_failures_silent "2024-01-01 00:00" "f.bin" envNoServer s0).2.1
      (by decide)).1,
    ((C9_validation_failures_silent "2024-01-01 00:00" "f.bin" envNoServer s0).2.1
      (by decide)).2,
    (C9_validation_failures_silent "2024-01-01 00:00" "" envUp s0).2.2 rfl⟩

/- ### Claim theorems: progress stream -/

theorem ceil_div_mul_ge (chunk total : Nat) (hc : 0 < chunk) :
    total ≤ ((total + chunk - 1) / chunk) * chunk := by
  have h1 := Nat.div_add_mod (total + chunk - 1) chunk
  have h2 : (total + chunk - 1) % chunk < chunk := Nat.mod_lt _ hc
  have h3 : chunk * ((total + chunk - 1) / chunk)
      = ((total + chunk - 1) / chunk) * chunk := Nat.mul_comm _ _
  generalize hq : (total + chunk - 1) / chunk = q at h1 h3 ⊢
  generalize hr : (total + chunk - 1) % chunk = r at h1 h2
  generalize hp : chunk * q = p at h1 h3
  generalize hg : q * chunk = g at h3 ⊢
  omega

theorem progressSamples_length (chunk total : Nat) :
    (progressSamples chunk total).length = (total + chunk - 1) / chunk := by
  simp [progressSamples]

theorem progressSamples_getElem? (chunk total i : Nat)
    (h : i < (total + chunk - 1) / chunk) :
    (progressSamples chunk total)[i]?
      = some (min ((i + 1) * chunk) total, total) := by
  rw [progressSamples, List.getElem?_map, List.getElem?_range h]
  rfl

/-- C4: for every chunk size `chunk > 0`, file size `total`, pair of sample
positions `i ≤ j` and any sample of the stream, the progress samples
delivered by the chunked streaming loop are non-decreasing in transferred
bytes, every sample satisfies `transferred ≤ total` with the constant total,
and the final sample reports `transferred = total`. -/
theorem C4_progress_monotone_bounded_complete (chunk total : Nat)
    (hc : 0 < chunk) (i j : Nat) (a b p q : Nat × Nat) (hij : i ≤ j)
    (ha : (progressSamples chunk total)[i]? = some a)
    (hb : (progressSamples chunk total)[j]? = some b)
    (hp : p ∈ progressSamples chunk total)
    (hq : (progressSamples chunk total).getLast? = some q) :
    a.1 ≤ b.1 ∧ (p.1 ≤ p.2 ∧ p.2 = total) ∧ q.1 = total := by
  refine ⟨?_, ?_, ?_⟩
  · obtain ⟨hi, -⟩ := List.getElem?_eq_some_iff.mp ha
    obtain ⟨hj, -⟩ := List.getElem?_eq_some_iff.mp hb
    rw [progressSamples_length] at hi hj
    rw [progressSamples_getElem? chunk total i hi] at ha
    rw [progressSamples_getElem? chunk total j hj] at hb
    have ha' := Option.some.inj ha
    have hb' := Option.some.inj hb
    rw [← ha', ← hb']
    exact min_le_min (Nat.mul_le_mul_right chunk (Nat.succ_le_succ hij))
      (le_refl total)
  · rw [progressSamples] at hp
    simp only [List.mem_map, List.mem_range] at hp
    obtain ⟨k, -, hk⟩ := hp
    rw [← hk]
    exact ⟨min_le_right _ _, rfl⟩
  · rw [List.getLast?_eq_getElem?] at hq
    obtain ⟨hlt, -⟩ := List.getElem?_eq_some_iff.mp hq
    rw [progressSamples_length] at hlt hq
    have hpos : 0 < (total + chunk - 1) / chunk := by omega
    rw [progressSamples_getElem? chunk total ((total + chunk - 1) / chunk - 1)
      (by omega)] at hq
    have hq' := Option.some.inj hq
    have hsub : (total + chunk - 1) / chunk - 1 + 1
        = (total + chunk - 1) / chunk := by omega
    rw [hsub] at hq'
    rw [← hq']
    exact min_eq_right (ceil_div_mul_ge chunk total hc)

/-- Witness for C4 at chunk size 2 and a 5-byte file (samples
`[(2,5), (4,5), (5,5)]`). -/
theorem C4_progress_monotone_bounded_complete_witness :
    ((2, 5) : Nat × Nat).1 ≤ ((5, 5) : Nat × Nat).1
    ∧ (((4, 5) : Nat × Nat).1 ≤ ((4, 5) : Nat × Nat).2
        ∧ ((4, 5) : Nat × Nat).2 = 5)
    ∧ ((5, 5) : Nat × Nat).1 = 5 :=
  C4_progress_monotone_bounded_complete 2 5 (by decide) 0 2 (2, 5) (5, 5) (4, 5)
    (5, 5) (by decide) (by decide) (by decide) (by decide) (by decide)

/-- C10: a progress sample with `totalBytes = 0` makes `update_progress`
raise `ZeroDivisionError`: the percentage computation `transferred / total`
is not guarded against a zero total. -/
theorem C10_zero_total_divides (transferred : Nat) :
    update_progress transferred 0 = Except.error PyError.zeroDivisionError := rfl

end FS2
